import Mathlib

/-!
# nshwsl: the WSL network (re)provisioning workflow

A shallow embedding of `src/nshwsl.cpp`.  C strings are `List Char` (one `Char`
per byte, no NUL inside); the text of the pipe may hold any byte, NUL included,
and a buffer filled from it counts as a C string only up to its first NUL.
`int` values are `Int` in the 32-bit range, and everything the program obtains from the operating
system (process snapshot, the pipe of `wsl.exe ip addr`, the results of the
host network calls, the result of `system`) is a field of `Env`.  The calls the
program makes to the guest and to the host network service are recorded, in
order, in the `calls` of its `Outcome`.  Console output (`printf`) is not
modelled.
-/

namespace Nshwsl

/-! ## C library functions used by the program -/

/-- C `isspace` in the "C" locale: the white space that `%d` skips. -/
def isspace (c : Char) : Bool :=
  c == ' ' || c == '\t' || c == '\n' || c == '\x0b' || c == '\x0c' || c == '\r'

/-- C `isdigit`. -/
def isdigit (c : Char) : Bool :=
  decide (48 ≤ c.toNat) && decide (c.toNat ≤ 57)

/-- Value of a run of decimal digits, most significant first, on top of `acc`. -/
def digitsValue : Nat → List Char → Nat
  | acc, [] => acc
  | acc, c :: cs => digitsValue (acc * 10 + (c.toNat - 48)) cs

/-- The low 32 bits of a value, read as a two's complement `int`. -/
def toInt32 (z : Int) : Int :=
  (z + 2147483648) % 4294967296 - 2147483648

/-- A value held in a signed 64-bit integer: beyond either end of its range it
stays at that end. -/
def clampInt64 (z : Int) : Int :=
  if z < -9223372036854775808 then -9223372036854775808
  else if 9223372036854775807 < z then 9223372036854775807
  else z

/-- What `%d` stores in its `int` for a signed run of digits of value `z`: the
C library collects the value in 64 bits, clamped at the ends of that range,
and the `int` receives its low 32 bits. -/
def scanValue (z : Int) : Int :=
  toInt32 (clampInt64 z)

/-- Result of one `%d` conversion of `sscanf`. -/
inductive Conv where
  | eof
  | fail
  | ok (v : Int) (rest : List Char)
  deriving DecidableEq

/-- One `%d` conversion: skip white space, take an optional sign, then at
least one digit.  `eof` is the input failure (the string ends before a digit),
`fail` the matching failure. -/
def scanInt (s : List Char) : Conv :=
  let s1 := s.dropWhile isspace
  let neg := s1.head? == some '-'
  let s2 := if s1.head? == some '-' || s1.head? == some '+' then s1.tail else s1
  let ds := s2.takeWhile isdigit
  if ds.isEmpty then (if s2.isEmpty then Conv.eof else Conv.fail)
  else Conv.ok (scanValue (if neg then -(digitsValue 0 ds : Int) else (digitsValue 0 ds : Int)))
    (s2.dropWhile isdigit)

/-- A literal character of a `scanf` format: it must be the next character. -/
def expect (ch : Char) : List Char → Option (List Char)
  | [] => none
  | c :: r => if c = ch then some r else none

/-- What `sscanf (s, "%d.%d.%d.%d", &a, &b, &c, &d)` delivers: its return value
`n` and the four variables (a variable that was not assigned is shown as 0; the
program reads none of them unless `n` is 4). -/
structure Scanned where
  n : Int
  a : Int
  b : Int
  c : Int
  d : Int
  deriving DecidableEq

/-- The call `sscanf (s, "%d.%d.%d.%d", &a, &b, &c, &d)`. -/
def sscanf4 (s : List Char) : Scanned :=
  match scanInt s with
  | Conv.eof => ⟨-1, 0, 0, 0, 0⟩
  | Conv.fail => ⟨0, 0, 0, 0, 0⟩
  | Conv.ok a r1 =>
    match (expect '.' r1).map scanInt with
    | some (Conv.ok b r2) =>
      match (expect '.' r2).map scanInt with
      | some (Conv.ok c r3) =>
        match (expect '.' r3).map scanInt with
        | some (Conv.ok d _) => ⟨4, a, b, c, d⟩
        | _ => ⟨3, a, b, c, 0⟩
      | _ => ⟨2, a, b, 0, 0⟩
    | _ => ⟨1, a, 0, 0, 0⟩

/-- An argument of a `printf`-style call: a string for `%s`, an `int` for `%u`. -/
inductive Arg where
  | str (s : List Char)
  | uint (v : Int)

/-- Output of `%u` for an `int` argument: the value read as unsigned 32-bit. -/
def utoa (v : Int) : List Char :=
  (Nat.repr (v % 4294967296).toNat).toList

/-- Expansion of a `printf` format with the two conversions the program uses
(in Microsoft's wide-character functions `%s` takes a wide string, so the same
expansion serves `snprintf` and `_snwprintf`).  A conversion without a fitting
argument does not occur in the program and is copied as it stands. -/
def vformat : List Char → List Arg → List Char
  | '%' :: 's' :: fmt, Arg.str s :: args => s ++ vformat fmt args
  | '%' :: 'u' :: fmt, Arg.uint v :: args => utoa v ++ vformat fmt args
  | c :: fmt, args => c :: vformat fmt args
  | [], _ => []

/-- C99 `snprintf (buf, size, fmt, ...)`: at most `size - 1` characters are
stored, followed by the terminator. -/
def snprintf (size : Nat) (fmt : String) (args : List Arg) : List Char :=
  (vformat fmt.toList args).take (size - 1)

/-- Microsoft `_snwprintf (buf, count, fmt, ...)`: at most `count` characters
are stored. -/
def snwprintf (count : Nat) (fmt : String) (args : List Arg) : List Char :=
  (vformat fmt.toList args).take count

/-- The C string a buffer holds: its characters up to the first NUL byte. -/
def cstr (buf : List Char) : List Char :=
  buf.takeWhile (fun c => c != '\x00')

/-- Whether `needle` occurs in `hay` as a run of consecutive characters. -/
def findString : List Char → List Char → Bool
  | [], needle => needle.isEmpty
  | c :: hay, needle => needle.isPrefixOf (c :: hay) || findString hay needle

/-- C `strstr (hay, needle) != NULL` for a buffer `hay` filled by `fgets`: the
search ends at the first NUL byte of the buffer, which may come from the
stream.  The needle is a C string of the program and holds no NUL. -/
def strstr (hay needle : List Char) : Bool :=
  findString (cstr hay) needle

/-- The characters one `fgets` call stores when it may store `k` of them: up
to and including the first newline.  Returns the buffer and the rest of the
stream. -/
def fgetsRead : Nat → List Char → List Char × List Char
  | 0, s => ([], s)
  | _ + 1, [] => ([], [])
  | k + 1, c :: s =>
    if c = '\n' then ([c], s) else (c :: (fgetsRead k s).1, (fgetsRead k s).2)

/-- C `fgets (buf, n, stream)`: `none` (NULL) at end of file, else the buffer
of at most `n - 1` characters and the rest of the stream. -/
def fgets (n : Nat) (stream : List Char) : Option (List Char × List Char) :=
  if stream.isEmpty then none else some (fgetsRead (n - 1) stream)

/-! ## Environment and recorded calls -/

/-- The only fields of a `PROCESSENTRY32` the program reads. -/
structure PROCESSENTRY32 where
  th32ProcessID : Nat
  szExeFile : List Char
  deriving DecidableEq

abbrev HRESULT := Int

def S_OK : HRESULT := 0

/-- The value `E_ACCESSDENIED` of the Windows SDK, 0x80070005 as a signed 32-bit value. -/
def E_ACCESSDENIED : HRESULT := -2147024891

/-- The value `HCN_E_NETWORK_NOT_FOUND` of the Windows SDK (0x803B0001): the result of
`HcnOpenNetwork` when no network has the given id. -/
def HCN_E_NETWORK_NOT_FOUND : HRESULT := -2143617023

/-- Everything the program obtains from the operating system in one run.
Handles are numbers, 0 being NULL.  The result and the handle of an open or
create call are independent fields: the program tests both (`S_OK == hRes`,
`if (pHcnNetwork)`), although the interface promises a handle exactly on
success; a statement that relies on that promise says so. -/
structure Env where
  /-- the process list of `CreateToolhelp32Snapshot`; `none` is `INVALID_HANDLE_VALUE` -/
  snapshot : Option (List PROCESSENTRY32)
  /-- the text the pipe `_popen ("wsl.exe ip addr", "r")` delivers; `none` is NULL -/
  popen : Option (List Char)
  /-- result of `CLSIDFromString (WSL_NETWORK_GUID, &NetworkGUID)` -/
  CLSIDFromString : HRESULT
  /-- result of `HcnOpenNetwork` and the handle it stores -/
  HcnOpenNetwork : HRESULT × Nat
  /-- result of `HcnCloseNetwork`; the program assigns it and never reads it -/
  HcnCloseNetwork : HRESULT
  /-- result of `HcnDeleteNetwork` -/
  HcnDeleteNetwork : HRESULT
  /-- result of `HcnCreateNetwork` and the handle it stores -/
  HcnCreateNetwork : HRESULT × Nat
  /-- result of `system`; the program discards it -/
  system : Int

/-- A call to the guest or to the host network service. -/
inductive Call where
  | popen (cmd : List Char)
  | HcnOpenNetwork (id : List Char)
  | HcnCloseNetwork
  | HcnDeleteNetwork (id : List Char)
  | HcnCreateNetwork (id : List Char) (settings : List Char)
  | HcnCloseEndpoint
  | system (cmd : List Char)
  deriving DecidableEq

/-- Return value of `WSL_CreateUpdateNetwork` and the calls it made, in order. -/
structure Outcome where
  ret : Int
  calls : List Call
  deriving DecidableEq

/-! ## The program -/

def WSL_NETWORK_GUID : String := "\x7bB95D0C5E-57D4-412B-B571-18A81A16E005\x7d"

def DEFAULT_IP_ADDRESS : String := "192.168.222.222"

/-- The function `GetProcessIdByName`: the id of the first process of the snapshot whose
image name is `pszProcessName`, 0 when there is none or no snapshot. -/
def GetProcessIdByName (snapshot : Option (List PROCESSENTRY32))
    (pszProcessName : List Char) : Nat :=
  match snapshot with
  | none => 0
  | some entries =>
    match entries.find? (fun entry => entry.szExeFile == pszProcessName) with
    | some entry => entry.th32ProcessID
    | none => 0

/-- The `while (fgets (szBuffer, sizeof (szBuffer) - 1, pFile))` loop of
`WSL_CheckAdressAlreadySet`, `sizeof (szBuffer)` being 4096.  Every round
takes at least one character off the stream, so `fuel` rounds with `fuel` the
length of the stream reach the end of file (`checkLoop_fuel`: more fuel gives
the same count).  The counter `found` is not bounded here; the program only
tests whether it is 0. -/
def checkLoop (pszIpAddress : List Char) : Nat → List Char → Nat → Nat
  | 0, _, found => found
  | fuel + 1, stream, found =>
    match fgets 4095 stream with
    | none => found
    | some (szBuffer, rest) =>
      checkLoop pszIpAddress fuel rest (if strstr szBuffer pszIpAddress then found + 1 else found)

/-- The function `WSL_CheckAdressAlreadySet`: the number of buffers read from the pipe that
hold `pszIpAddress`; 0 when the pipe could not be opened. -/
def WSL_CheckAdressAlreadySet (pFile : Option (List Char)) (pszIpAddress : List Char) : Nat :=
  match pFile with
  | none => 0
  | some stream => checkLoop pszIpAddress stream.length stream 0

def networkSettingsJSON : String :=
  "\n" ++
  "    \x7b\n" ++
  "        \"Name\" : \"WSL\",\n" ++
  "        \"Flags\": 9,\n" ++
  "        \"Type\": \"ICS\",\n" ++
  "        \"IPv6\": false,\n" ++
  "        \"IsolateSwitch\": true,\n" ++
  "        \"MaxConcurrentEndpoints\": 1,\n" ++
  "        \"Subnets\" : [\n" ++
  "            \x7b\n" ++
  "                \"ID\" : \"FC437E99-2063-4433-A1FA-F4D17BD55C92\",\n" ++
  "                \"ObjectType\": 5,\n" ++
  "                \"AddressPrefix\" : \"%s/24\",\n" ++
  "                \"GatewayAddress\" : \"%s\",\n" ++
  "                \"IpSubnets\" : [\n" ++
  "                    \x7b\n" ++
  "                        \"ID\" : \"4D120505-4222-4CB2-8C53-DC0F70049696\",\n" ++
  "                        \"Flags\": 3,\n" ++
  "                        \"IpAddressPrefix\": \"%s/24\",\n" ++
  "                        \"ObjectType\": 6\n" ++
  "                    \x7d\n" ++
  "                ]\n" ++
  "            \x7d\n" ++
  "        ],\n" ++
  "        \"MacPools\":  [\n" ++
  "            \x7b\n" ++
  "                \"EndMacAddress\":  \"00-15-5D-52-C0-FF\",\n" ++
  "                \"StartMacAddress\":  \"00-15-5D-52-C0-00\"\n" ++
  "            \x7d\n" ++
  "        ]\n" ++
  "    \x7d"

/-- The buffer `szIpAddress` after lines 202-211. -/
def szIpAddress (pszIpAddress : List Char) : List Char :=
  if pszIpAddress ≠ [] then snprintf 100 "%s" [Arg.str pszIpAddress]
  else snprintf 100 "%s" [Arg.str DEFAULT_IP_ADDRESS.toList]

/-- The buffer `szwIpNetwork` after line 224 (`sizeof (szwIpNetwork)` is 200). -/
def szwIpNetwork (sc : Scanned) : List Char :=
  snwprintf 200 "%u.%u.%u.%u" [Arg.uint sc.a, Arg.uint sc.b, Arg.uint sc.c, Arg.uint 0]

/-- The buffer `szwIpGateway` after line 225. -/
def szwIpGateway (sc : Scanned) : List Char :=
  snwprintf 200 "%u.%u.%u.%u" [Arg.uint sc.a, Arg.uint sc.b, Arg.uint sc.c, Arg.uint 1]

/-- The buffer `szwJsonBuffer` after line 226 (`sizeof (szwJsonBuffer)` is 8192). -/
def szwJsonBuffer (sc : Scanned) : List Char :=
  snwprintf 8192 networkSettingsJSON
    [Arg.str (szwIpNetwork sc), Arg.str (szwIpGateway sc), Arg.str (szwIpNetwork sc)]

/-- The command line of line 293 (`sizeof (szBuffer)` is 1024). -/
def aliasCommand (szIp : List Char) : List Char :=
  snprintf 1024 "wsl sudo ip a add %s/24 dev eth0" [Arg.str szIp]

/-- The block after the label `Done`: close the handles that are not NULL and
return `ret`. -/
def Done (ret : Int) (calls : List Call) (pHcnEndpoint pHcnNetwork : Nat) : Outcome :=
  let calls1 := if pHcnEndpoint ≠ 0 then calls ++ [Call.HcnCloseEndpoint] else calls
  let calls2 := if pHcnNetwork ≠ 0 then calls1 ++ [Call.HcnCloseNetwork] else calls1
  ⟨ret, calls2⟩

/-- Lines 276-322: create the network, issue the alias command, fall through
to `Done`.  `ret` is still -1 on entry. -/
def createNetwork (env : Env) (calls : List Call) (szIp json : List Char) : Outcome :=
  let calls1 := calls ++ [Call.HcnCreateNetwork WSL_NETWORK_GUID.toList json]
  let pHcnNetwork := env.HcnCreateNetwork.2
  let ret : Int := if env.HcnCreateNetwork.1 = S_OK then 0 else -1
  let calls2 := calls1 ++ [Call.system (aliasCommand szIp)]
  Done ret calls2 0 pHcnNetwork

/-- The function `WSL_CreateUpdateNetwork`, lines 133-323.  The handle
`pHcnEndpoint` stays NULL throughout; `pHcnNetwork` holds what the last open or
create call stored. -/
def WSL_CreateUpdateNetwork (env : Env) (pszIpAddress : List Char) : Outcome :=
  let szIp := szIpAddress pszIpAddress
  let sc := sscanf4 szIp
  if sc.n < 4 then Done (-1) [] 0 0
  else
    let dwWslHostPID := GetProcessIdByName env.snapshot "wslhost.exe".toList
    let json := szwJsonBuffer sc
    let found := if dwWslHostPID ≠ 0 then WSL_CheckAdressAlreadySet env.popen szIp else 0
    let calls0 := if dwWslHostPID ≠ 0 then [Call.popen "wsl.exe ip addr".toList] else []
    if found ≠ 0 then Done (-1) calls0 0 0
    else if env.CLSIDFromString ≠ S_OK then Done (-1) calls0 0 0
    else
      let calls1 := calls0 ++ [Call.HcnOpenNetwork WSL_NETWORK_GUID.toList]
      if env.HcnOpenNetwork.1 = S_OK then
        let calls2 := if env.HcnOpenNetwork.2 ≠ 0 then calls1 ++ [Call.HcnCloseNetwork] else calls1
        let calls3 := calls2 ++ [Call.HcnDeleteNetwork WSL_NETWORK_GUID.toList]
        if env.HcnDeleteNetwork = S_OK then createNetwork env calls3 szIp json
        else Done (-1) calls3 0 0
      else createNetwork env calls1 szIp json

/-- The function `main`: `argv` is the whole argument vector, the program name first. -/
def main (env : Env) (argv : List (List Char)) : Outcome :=
  match argv with
  | _ :: arg :: _ => WSL_CreateUpdateNetwork env arg
  | _ => WSL_CreateUpdateNetwork env []

/-! ## Vocabulary of the statements -/

/-- The text `a.b.c.d` with every number in plain decimal. -/
def dottedQuad (a b c d : Nat) : List Char :=
  (toString a ++ "." ++ toString b ++ "." ++ toString c ++ "." ++ toString d).toList

/-- The value of `dwWslHostPID`. -/
def hostPID (env : Env) : Nat :=
  GetProcessIdByName env.snapshot "wslhost.exe".toList

/-- The value of `found` when the check of line 232 is reached. -/
def foundCount (env : Env) (s : List Char) : Nat :=
  if hostPID env ≠ 0 then WSL_CheckAdressAlreadySet env.popen (szIpAddress s) else 0

/-- The call of the guest address lister, made only when the guest runs. -/
def listerCalls (env : Env) : List Call :=
  if hostPID env ≠ 0 then [Call.popen "wsl.exe ip addr".toList] else []

/-- The `HcnCloseNetwork` call made for a handle that is not NULL. -/
def closeCalls (pHcnNetwork : Nat) : List Call :=
  if pHcnNetwork ≠ 0 then [Call.HcnCloseNetwork] else []

/-- The value `ret` leaves `HcnCreateNetwork` with. -/
def createRet (env : Env) : Int :=
  if env.HcnCreateNetwork.1 = S_OK then 0 else -1

/-- The four successful conversions behind a return value of 4. -/
def FourScanned (p : List Char) : Prop :=
  ∃ a r1 b r2 c r3 d r4, scanInt p = Conv.ok a ('.' :: r1) ∧
    scanInt r1 = Conv.ok b ('.' :: r2) ∧ scanInt r2 = Conv.ok c ('.' :: r3) ∧
    scanInt r3 = Conv.ok d r4

/-- A caller's string of 101 characters: `10.0.5.` and the last octet written
as 93 zeros and a 7. -/
def longAddress : List Char :=
  "10.0.5.".toList ++ (List.replicate 93 '0' ++ ['7'])

/-- A run environment: no guest running, an existing network that can be
opened, deleted and created again. -/
def envReplace : Env where
  snapshot := some []
  popen := none
  CLSIDFromString := S_OK
  HcnOpenNetwork := (S_OK, 1)
  HcnCloseNetwork := S_OK
  HcnDeleteNetwork := S_OK
  HcnCreateNetwork := (S_OK, 2)
  system := 0

/-- As `envReplace`, but the existing network cannot be deleted. -/
def envDeleteFails : Env where
  snapshot := some []
  popen := none
  CLSIDFromString := S_OK
  HcnOpenNetwork := (S_OK, 1)
  HcnCloseNetwork := S_OK
  HcnDeleteNetwork := E_ACCESSDENIED
  HcnCreateNetwork := (S_OK, 2)
  system := 0

/-- No guest running and no network under the fixed id; create succeeds. -/
def envAbsent : Env where
  snapshot := some []
  popen := none
  CLSIDFromString := S_OK
  HcnOpenNetwork := (HCN_E_NETWORK_NOT_FOUND, 0)
  HcnCloseNetwork := S_OK
  HcnDeleteNetwork := S_OK
  HcnCreateNetwork := (S_OK, 2)
  system := 0

/-- No guest running, no network under the fixed id, and create fails. -/
def envCreateFails : Env where
  snapshot := some []
  popen := none
  CLSIDFromString := S_OK
  HcnOpenNetwork := (HCN_E_NETWORK_NOT_FOUND, 0)
  HcnCloseNetwork := S_OK
  HcnDeleteNetwork := S_OK
  HcnCreateNetwork := (E_ACCESSDENIED, 0)
  system := 1

/-- No guest running; `HcnOpenNetwork` is refused for lack of privilege, which
is no not-found condition; create succeeds. -/
def envAccessDenied : Env where
  snapshot := some []
  popen := none
  CLSIDFromString := S_OK
  HcnOpenNetwork := (E_ACCESSDENIED, 0)
  HcnCloseNetwork := S_OK
  HcnDeleteNetwork := S_OK
  HcnCreateNetwork := (S_OK, 2)
  system := 0

/-- The guest runs (`wslhost.exe` has process id 1234) and its address list
shows the default target address 192.168.222.222. -/
def envAlreadySet : Env where
  snapshot := some [⟨4, "System".toList⟩, ⟨1234, "wslhost.exe".toList⟩]
  popen := some ("2: eth0: <BROADCAST,MULTICAST,UP,LOWER_UP> mtu 1500\n" ++
    "    inet 192.168.222.222/24 brd 192.168.222.255 scope global eth0\n").toList
  CLSIDFromString := S_OK
  HcnOpenNetwork := (S_OK, 1)
  HcnCloseNetwork := S_OK
  HcnDeleteNetwork := S_OK
  HcnCreateNetwork := (S_OK, 2)
  system := 0

theorem findString_iff (hay needle : List Char) :
    findString hay needle = true ↔ needle <:+: hay := by
  induction hay with
  | nil => cases needle <;> simp [findString]
  | cons c hay ih =>
    simp only [findString, Bool.or_eq_true, ih, List.isPrefixOf_iff_prefix]
    rw [List.infix_cons_iff]

theorem digitsValue_append (acc : Nat) (xs ys : List Char) :
    digitsValue acc (xs ++ ys) = digitsValue (digitsValue acc xs) ys := by
  induction xs generalizing acc with
  | nil => rfl
  | cons x xs ih => exact ih _

theorem digitChar_spec (k : Nat) (hk : k < 10) :
    isdigit (Nat.digitChar k) = true ∧ (Nat.digitChar k).toNat - 48 = k := by
  interval_cases k <;> exact ⟨rfl, rfl⟩

theorem toDigitsCore_spec (fuel : Nat) : ∀ (n : Nat) (ds : List Char), n < fuel →
    ∃ pre : List Char, Nat.toDigitsCore 10 fuel n ds = pre ++ ds ∧ pre ≠ [] ∧
      (∀ c ∈ pre, isdigit c = true) ∧ digitsValue 0 pre = n := by
  induction fuel with
  | zero => intro n ds h; omega
  | succ fuel ih =>
    intro n ds h
    obtain ⟨hd1, hd2⟩ := digitChar_spec (n % 10) (Nat.mod_lt _ (by decide))
    rw [Nat.toDigitsCore]
    generalize Nat.digitChar (n % 10) = ch at hd1 hd2 ⊢
    by_cases h0 : n / 10 = 0
    · rw [if_pos h0]
      refine ⟨[ch], rfl, List.cons_ne_nil _ _, ?_, ?_⟩
      · intro c hc
        rw [List.mem_singleton.1 hc]; exact hd1
      · show 0 * 10 + (ch.toNat - 48) = n
        omega
    · rw [if_neg h0]
      obtain ⟨pre, hpre, _, hall, hval⟩ := ih (n / 10) (ch :: ds) (by omega)
      refine ⟨pre ++ [ch], ?_, ?_, ?_, ?_⟩
      · rw [hpre, List.append_assoc]; rfl
      · intro hnil
        exact List.cons_ne_nil ch [] (List.append_eq_nil.1 hnil).2
      · intro c hc
        rcases List.mem_append.1 hc with hc | hc
        · exact hall c hc
        · rw [List.mem_singleton.1 hc]; exact hd1
      · rw [digitsValue_append, hval]
        show n / 10 * 10 + (ch.toNat - 48) = n
        omega

theorem repr_spec (n : Nat) :
    (Nat.repr n).toList ≠ [] ∧ (∀ c ∈ (Nat.repr n).toList, isdigit c = true) ∧
      digitsValue 0 (Nat.repr n).toList = n := by
  obtain ⟨pre, hpre, hne, hall, hval⟩ := toDigitsCore_spec (n + 1) n [] (by omega)
  have : (Nat.repr n).toList = pre := by
    simp [Nat.repr, Nat.toDigits, hpre, List.asString]
  rw [this]
  exact ⟨hne, hall, hval⟩

theorem isdigit_props (c : Char) (h : isdigit c = true) :
    isspace c = false ∧ c ≠ '-' ∧ c ≠ '+' := by
  simp only [isdigit, Bool.and_eq_true, decide_eq_true_eq] at h
  refine ⟨?_, ?_, ?_⟩
  · simp only [isspace, Bool.or_eq_false_iff, beq_eq_false_iff_ne, ne_eq]
    refine ⟨⟨⟨⟨⟨?_, ?_⟩, ?_⟩, ?_⟩, ?_⟩, ?_⟩ <;> (rintro rfl; revert h; decide)
  · rintro rfl; revert h; decide
  · rintro rfl; revert h; decide

theorem scanInt_digits (ds rest : List Char) (hne : ds ≠ [])
    (hall : ∀ c ∈ ds, isdigit c = true) (hrest : rest.takeWhile isdigit = []) :
    scanInt (ds ++ rest) = Conv.ok (scanValue (digitsValue 0 ds)) rest := by
  have hdrop : rest.dropWhile isdigit = rest := by
    have := List.takeWhile_append_dropWhile isdigit rest
    rw [hrest] at this
    simpa using this
  have htake : (ds ++ rest).takeWhile isdigit = ds := by
    rw [List.takeWhile_append_of_pos hall, hrest, List.append_nil]
  have hdrop2 : (ds ++ rest).dropWhile isdigit = rest := by
    rw [List.dropWhile_append_of_pos hall, hdrop]
  obtain ⟨c, ds1, rfl⟩ := List.exists_cons_of_ne_nil hne
  obtain ⟨hsp, hminus, hplus⟩ := isdigit_props c (hall c (List.mem_cons_self _ _))
  have h1 : (c :: ds1 ++ rest).dropWhile isspace = c :: ds1 ++ rest := by
    simp [List.dropWhile_cons, hsp]
  have hh : (c :: ds1 ++ rest).head? = some c := rfl
  have hm : (some c == some '-') = false := by simpa using hminus
  have hp : (some c == some '+') = false := by simpa using hplus
  have he : (c :: ds1).isEmpty = false := rfl
  unfold scanInt
  simp only [h1, hh, hm, hp, Bool.or_false, Bool.false_eq_true, if_false, htake, hdrop2, he]

theorem dottedQuad_eq (a b c d : Nat) :
    dottedQuad a b c d = (Nat.repr a).toList ++ '.' :: ((Nat.repr b).toList ++
      '.' :: ((Nat.repr c).toList ++ '.' :: (Nat.repr d).toList)) := by
  simp [dottedQuad, toString, String.data_append]

theorem scanValue_small (n : Nat) (h : n ≤ 255) : scanValue (n : Int) = (n : Int) := by
  unfold scanValue clampInt64 toInt32
  split_ifs <;> omega

theorem scanInt_repr (n : Nat) (rest : List Char) (hrest : rest.takeWhile isdigit = []) :
    scanInt ((Nat.repr n).toList ++ rest) = Conv.ok (scanValue (n : Int)) rest := by
  obtain ⟨hne, hall, hval⟩ := repr_spec n
  rw [scanInt_digits _ _ hne hall hrest, hval]

theorem sscanf4_dottedQuad (a b c d : Nat) :
    sscanf4 (dottedQuad a b c d) =
      ⟨4, scanValue (a : Int), scanValue (b : Int), scanValue (c : Int),
        scanValue (d : Int)⟩ := by
  have hdot : ∀ r : List Char, ('.' :: r).takeWhile isdigit = [] := fun r => rfl
  have hd := scanInt_repr d [] rfl
  rw [List.append_nil] at hd
  rw [dottedQuad_eq]
  unfold sscanf4
  simp only [scanInt_repr _ _ (hdot _), expect, if_true, Option.map_some', hd]

theorem utoa_small (n : Nat) (h : n ≤ 255) : utoa (n : Int) = (Nat.repr n).toList := by
  have : ((n : Int) % 4294967296).toNat = n := by omega
  simp only [utoa, this]

theorem repr_length_small (n : Nat) (h : n ≤ 255) : (Nat.repr n).toList.length ≤ 3 :=
  Nat.repr_length n 3 (by decide) (by omega)

/-! ## The derived block -/

theorem szIpAddress_eq (s : List Char) :
    szIpAddress s = if s ≠ [] then s.take 99 else "192.168.222.222".toList := by
  unfold szIpAddress
  split
  · simp [snprintf, vformat]
  · rfl

theorem szIpAddress_length (s : List Char) : (szIpAddress s).length ≤ 99 := by
  rw [szIpAddress_eq]
  split
  · rw [List.length_take]; omega
  · decide

theorem szwIpNetwork_small (n : Int) (a b c d : Nat) (ha : a ≤ 255) (hb : b ≤ 255) (hc : c ≤ 255) :
    szwIpNetwork ⟨n, a, b, c, d⟩ = dottedQuad a b c 0 := by
  have la := repr_length_small a ha
  have lb := repr_length_small b hb
  have lc := repr_length_small c hc
  have l0 : (Nat.repr 0).toList.length = 1 := rfl
  have h0 : utoa 0 = (Nat.repr 0).toList := rfl
  have hf : vformat "%u.%u.%u.%u".toList
      [Arg.uint (a : Int), Arg.uint (b : Int), Arg.uint (c : Int), Arg.uint 0] =
      dottedQuad a b c 0 := by
    rw [dottedQuad_eq, ← utoa_small a ha, ← utoa_small b hb, ← utoa_small c hc, ← h0]
    simp [vformat]
  unfold szwIpNetwork snwprintf
  simp only [hf]
  apply List.take_of_length_le
  rw [dottedQuad_eq]
  simp only [List.length_append, List.length_cons]
  omega

theorem szwIpGateway_small (n : Int) (a b c d : Nat) (ha : a ≤ 255) (hb : b ≤ 255) (hc : c ≤ 255) :
    szwIpGateway ⟨n, a, b, c, d⟩ = dottedQuad a b c 1 := by
  have la := repr_length_small a ha
  have lb := repr_length_small b hb
  have lc := repr_length_small c hc
  have l1 : (Nat.repr 1).toList.length = 1 := rfl
  have h1 : utoa 1 = (Nat.repr 1).toList := rfl
  have hf : vformat "%u.%u.%u.%u".toList
      [Arg.uint (a : Int), Arg.uint (b : Int), Arg.uint (c : Int), Arg.uint 1] =
      dottedQuad a b c 1 := by
    rw [dottedQuad_eq, ← utoa_small a ha, ← utoa_small b hb, ← utoa_small c hc, ← h1]
    simp [vformat]
  unfold szwIpGateway snwprintf
  simp only [hf]
  apply List.take_of_length_le
  rw [dottedQuad_eq]
  simp only [List.length_append, List.length_cons]
  omega

theorem dottedQuad_length (a b c d : Nat) (ha : a ≤ 255) (hb : b ≤ 255) (hc : c ≤ 255)
    (hd : d ≤ 255) : 0 < (dottedQuad a b c d).length ∧ (dottedQuad a b c d).length ≤ 15 := by
  have la := repr_length_small a ha
  have lb := repr_length_small b hb
  have lc := repr_length_small c hc
  have ld := repr_length_small d hd
  rw [dottedQuad_eq]
  simp only [List.length_append, List.length_cons]
  omega

theorem szIpAddress_dottedQuad (a b c d : Nat) (ha : a ≤ 255) (hb : b ≤ 255) (hc : c ≤ 255)
    (hd : d ≤ 255) : szIpAddress (dottedQuad a b c d) = dottedQuad a b c d := by
  obtain ⟨hpos, hlen⟩ := dottedQuad_length a b c d ha hb hc hd
  have hne : dottedQuad a b c d ≠ [] := List.ne_nil_of_length_pos hpos
  rw [szIpAddress_eq, if_pos hne]
  exact List.take_of_length_le (by omega)

/-- The derived block of a target `a.b.c.d` with octets in 0..255. -/
theorem derived_block (s : List Char) (a b c d : Nat) (ha : a ≤ 255) (hb : b ≤ 255)
    (hc : c ≤ 255) (hd : d ≤ 255) (hs : szIpAddress s = dottedQuad a b c d) :
    (sscanf4 (szIpAddress s)).n = 4 ∧
      szwIpNetwork (sscanf4 (szIpAddress s)) = dottedQuad a b c 0 ∧
      szwIpGateway (sscanf4 (szIpAddress s)) = dottedQuad a b c 1 := by
  rw [hs, sscanf4_dottedQuad, scanValue_small a ha, scanValue_small b hb, scanValue_small c hc,
    scanValue_small d hd]
  exact ⟨rfl, szwIpNetwork_small 4 a b c d ha hb hc, szwIpGateway_small 4 a b c d ha hb hc⟩

/-- The derived block of the built-in default address. -/
theorem default_block :
    szwIpNetwork (sscanf4 (szIpAddress [])) = "192.168.222.0".toList ∧
      szwIpGateway (sscanf4 (szIpAddress [])) = "192.168.222.1".toList := by
  have hdef : szIpAddress [] = dottedQuad 192 168 222 222 := by
    rw [szIpAddress_eq]; decide
  have hblock := derived_block [] 192 168 222 222 (by decide) (by decide) (by decide)
    (by decide) hdef
  constructor
  · rw [hblock.2.1]; decide
  · rw [hblock.2.2]; decide

theorem aliasCommand_eq (x : List Char) (hx : x.length ≤ 99) :
    aliasCommand x = "wsl sudo ip a add ".toList ++ (x ++ "/24 dev eth0".toList) := by
  have hf : vformat "wsl sudo ip a add %s/24 dev eth0".toList [Arg.str x] =
      "wsl sudo ip a add ".toList ++ (x ++ "/24 dev eth0".toList) := by
    rfl
  unfold aliasCommand snprintf
  rw [hf]
  apply List.take_of_length_le
  simp only [List.length_append]
  have h0 : "wsl sudo ip a add ".toList.length = 18 := by rfl
  have h1 : "/24 dev eth0".toList.length = 12 := by rfl
  rw [h0, h1]
  omega

set_option maxRecDepth 100000

/-- The configuration document written out: the template with the network in
its two prefix fields and the gateway in its gateway field. -/
theorem json_document (net gw : List Char) (hnet : net.length ≤ 43) (hgw : gw.length ≤ 43) :
    snwprintf 8192 networkSettingsJSON [Arg.str net, Arg.str gw, Arg.str net] =
      ("\n" ++
        "    \x7b\n" ++
        "        \"Name\" : \"WSL\",\n" ++
        "        \"Flags\": 9,\n" ++
        "        \"Type\": \"ICS\",\n" ++
        "        \"IPv6\": false,\n" ++
        "        \"IsolateSwitch\": true,\n" ++
        "        \"MaxConcurrentEndpoints\": 1,\n" ++
        "        \"Subnets\" : [\n" ++
        "            \x7b\n" ++
        "                \"ID\" : \"FC437E99-2063-4433-A1FA-F4D17BD55C92\",\n" ++
        "                \"ObjectType\": 5,\n" ++
        "                \"AddressPrefix\" : \"").toList ++
      (net ++
      (("/24\",\n" ++
        "                \"GatewayAddress\" : \"").toList ++
      (gw ++
      (("\",\n" ++
        "                \"IpSubnets\" : [\n" ++
        "                    \x7b\n" ++
        "                        \"ID\" : \"4D120505-4222-4CB2-8C53-DC0F70049696\",\n" ++
        "                        \"Flags\": 3,\n" ++
        "                        \"IpAddressPrefix\": \"").toList ++
      (net ++
      ("/24\",\n" ++
        "                        \"ObjectType\": 6\n" ++
        "                    \x7d\n" ++
        "                ]\n" ++
        "            \x7d\n" ++
        "        ],\n" ++
        "        \"MacPools\":  [\n" ++
        "            \x7b\n" ++
        "                \"EndMacAddress\":  \"00-15-5D-52-C0-FF\",\n" ++
        "                \"StartMacAddress\":  \"00-15-5D-52-C0-00\"\n" ++
        "            \x7d\n" ++
        "        ]\n" ++
        "    \x7d").toList))))) := by
  have hf : vformat networkSettingsJSON.toList [Arg.str net, Arg.str gw, Arg.str net] =
      ("\n" ++
        "    \x7b\n" ++
        "        \"Name\" : \"WSL\",\n" ++
        "        \"Flags\": 9,\n" ++
        "        \"Type\": \"ICS\",\n" ++
        "        \"IPv6\": false,\n" ++
        "        \"IsolateSwitch\": true,\n" ++
        "        \"MaxConcurrentEndpoints\": 1,\n" ++
        "        \"Subnets\" : [\n" ++
        "            \x7b\n" ++
        "                \"ID\" : \"FC437E99-2063-4433-A1FA-F4D17BD55C92\",\n" ++
        "                \"ObjectType\": 5,\n" ++
        "                \"AddressPrefix\" : \"").toList ++
      (net ++
      (("/24\",\n" ++
        "                \"GatewayAddress\" : \"").toList ++
      (gw ++
      (("\",\n" ++
        "                \"IpSubnets\" : [\n" ++
        "                    \x7b\n" ++
        "                        \"ID\" : \"4D120505-4222-4CB2-8C53-DC0F70049696\",\n" ++
        "                        \"Flags\": 3,\n" ++
        "                        \"IpAddressPrefix\": \"").toList ++
      (net ++
      ("/24\",\n" ++
        "                        \"ObjectType\": 6\n" ++
        "                    \x7d\n" ++
        "                ]\n" ++
        "            \x7d\n" ++
        "        ],\n" ++
        "        \"MacPools\":  [\n" ++
        "            \x7b\n" ++
        "                \"EndMacAddress\":  \"00-15-5D-52-C0-FF\",\n" ++
        "                \"StartMacAddress\":  \"00-15-5D-52-C0-00\"\n" ++
        "            \x7d\n" ++
        "        ]\n" ++
        "    \x7d").toList))))) := by
    rfl
  unfold snwprintf
  rw [hf]
  apply List.take_of_length_le
  simp only [List.length_append]
  have h0 : ("\n" ++
        "    \x7b\n" ++
        "        \"Name\" : \"WSL\",\n" ++
        "        \"Flags\": 9,\n" ++
        "        \"Type\": \"ICS\",\n" ++
        "        \"IPv6\": false,\n" ++
        "        \"IsolateSwitch\": true,\n" ++
        "        \"MaxConcurrentEndpoints\": 1,\n" ++
        "        \"Subnets\" : [\n" ++
        "            \x7b\n" ++
        "                \"ID\" : \"FC437E99-2063-4433-A1FA-F4D17BD55C92\",\n" ++
        "                \"ObjectType\": 5,\n" ++
        "                \"AddressPrefix\" : \"").toList.length = 332 := by rfl
  have h1 : ("/24\",\n" ++
        "                \"GatewayAddress\" : \"").toList.length = 42 := by rfl
  have h2 : ("\",\n" ++
        "                \"IpSubnets\" : [\n" ++
        "                    \x7b\n" ++
        "                        \"ID\" : \"4D120505-4222-4CB2-8C53-DC0F70049696\",\n" ++
        "                        \"Flags\": 3,\n" ++
        "                        \"IpAddressPrefix\": \"").toList.length = 208 := by rfl
  have h3 : ("/24\",\n" ++
        "                        \"ObjectType\": 6\n" ++
        "                    \x7d\n" ++
        "                ]\n" ++
        "            \x7d\n" ++
        "        ],\n" ++
        "        \"MacPools\":  [\n" ++
        "            \x7b\n" ++
        "                \"EndMacAddress\":  \"00-15-5D-52-C0-FF\",\n" ++
        "                \"StartMacAddress\":  \"00-15-5D-52-C0-00\"\n" ++
        "            \x7d\n" ++
        "        ]\n" ++
        "    \x7d").toList.length = 288 := by rfl
  rw [h0, h1, h2, h3]
  omega

theorem scanInt_append (p t : List Char) (v : Int) (r : List Char)
    (h : scanInt p = Conv.ok v r) :
    ∃ v1 r1, scanInt (p ++ t) = Conv.ok v1 r1 ∧ (r ≠ [] → r1 = r ++ t) := by
  unfold scanInt at h ⊢
  generalize hs1 : p.dropWhile isspace = s1 at h
  have hs1ne : s1 ≠ [] := by
    rintro rfl
    simp at h
  have hdw : (p ++ t).dropWhile isspace = s1 ++ t := by
    rw [List.dropWhile_append, hs1]
    simp [hs1ne]
  rw [hdw]
  obtain ⟨c, s1t, rfl⟩ := List.exists_cons_of_ne_nil hs1ne
  simp only [List.cons_append, List.head?_cons, List.tail_cons] at h ⊢
  generalize hneg : (some c == some '-') = neg at h ⊢
  generalize hsign : (neg || some c == some '+') = sign at h ⊢
  have hs2 : (if sign = true then s1t ++ t else c :: (s1t ++ t)) =
      (if sign = true then s1t else c :: s1t) ++ t := by
    split <;> rfl
  rw [hs2]
  generalize (if sign = true then s1t else c :: s1t) = s2 at h ⊢
  by_cases hds : (s2.takeWhile isdigit).isEmpty = true
  · simp only [hds, if_true] at h
    split at h <;> exact absurd h (by simp)
  · simp only [hds, Bool.false_eq_true, if_false, Conv.ok.injEq] at h
    have hds2 : ((s2 ++ t).takeWhile isdigit).isEmpty = false := by
      rw [List.takeWhile_append]
      split
      · rename_i hlen
        have hne : s2 ≠ [] := by
          rintro rfl
          simp at hds
        simp [hne]
      · simpa using hds
    simp only [hds2, Bool.false_eq_true, if_false, Conv.ok.injEq]
    refine ⟨_, _, ⟨rfl, rfl⟩, ?_⟩
    intro hr
    rw [List.dropWhile_append, h.2]
    simp [hr]

theorem expect_map_scanInt (r : List Char) (y : Conv)
    (h : (expect '.' r).map scanInt = some y) : ∃ r1, r = '.' :: r1 ∧ scanInt r1 = y := by
  cases r with
  | nil => simp [expect] at h
  | cons c r1 =>
    by_cases hc : c = '.'
    · subst hc
      simp only [expect, if_true, Option.map_some', Option.some.injEq] at h
      exact ⟨r1, rfl, h⟩
    · simp [expect, hc] at h

theorem sscanf4_le_four (p : List Char) : (sscanf4 p).n ≤ 4 := by
  unfold sscanf4
  repeat' split
  all_goals simp

theorem fourScanned_of_four (p : List Char) (h : (sscanf4 p).n = 4) : FourScanned p := by
  unfold sscanf4 at h
  split at h
  · simp at h
  · simp at h
  · rename_i a r1 h1
    split at h
    · rename_i b r2 h2
      split at h
      · rename_i c r3 h3
        split at h
        · rename_i d r4 h4
          obtain ⟨q1, rfl, e2⟩ := expect_map_scanInt _ _ h2
          obtain ⟨q2, rfl, e3⟩ := expect_map_scanInt _ _ h3
          obtain ⟨q3, rfl, e4⟩ := expect_map_scanInt _ _ h4
          exact ⟨a, q1, b, q2, c, q3, d, r4, h1, e2, e3, e4⟩
        · simp at h
      · simp at h
    · simp at h

theorem four_of_fourScanned (p : List Char) (h : FourScanned p) : (sscanf4 p).n = 4 := by
  obtain ⟨a, r1, b, r2, c, r3, d, r4, h1, h2, h3, h4⟩ := h
  unfold sscanf4
  simp only [h1, h2, h3, h4, expect, if_true, Option.map_some']

theorem fourScanned_append (p t : List Char) (h : FourScanned p) : FourScanned (p ++ t) := by
  obtain ⟨a, r1, b, r2, c, r3, d, r4, h1, h2, h3, h4⟩ := h
  obtain ⟨a1, q1, e1, k1⟩ := scanInt_append p t _ _ h1
  obtain ⟨b1, q2, e2, k2⟩ := scanInt_append r1 t _ _ h2
  obtain ⟨c1, q3, e3, k3⟩ := scanInt_append r2 t _ _ h3
  obtain ⟨d1, q4, e4, _⟩ := scanInt_append r3 t _ _ h4
  rw [k1 (List.cons_ne_nil _ _)] at e1
  rw [k2 (List.cons_ne_nil _ _)] at e2
  rw [k3 (List.cons_ne_nil _ _)] at e3
  exact ⟨a1, r1 ++ t, b1, r2 ++ t, c1, r3 ++ t, d1, q4, e1, e2, e3, e4⟩

/-- A string from which fewer than four numbers are scanned yields fewer than
four numbers when it is cut short. -/
theorem sscanf4_take_lt (s : List Char) (k : Nat) (h : (sscanf4 s).n < 4) :
    (sscanf4 (s.take k)).n < 4 := by
  by_contra hcon
  have h4 : (sscanf4 (s.take k)).n = 4 := by
    have := sscanf4_le_four (s.take k)
    omega
  have := four_of_fourScanned _ (fourScanned_append (s.take k) (s.drop k)
    (fourScanned_of_four _ h4))
  rw [List.take_append_drop] at this
  omega

/-! ## The lister loop -/

theorem checkLoop_step (t : List Char) (fuel : Nat) (stream : List Char) (found : Nat)
    (h : stream ≠ []) :
    checkLoop t (fuel + 1) stream found =
      checkLoop t fuel (fgetsRead 4094 stream).2
        (if strstr (fgetsRead 4094 stream).1 t then found + 1 else found) := by
  obtain ⟨c, s, rfl⟩ := List.exists_cons_of_ne_nil h
  rfl

theorem fgetsRead_rest_length : ∀ (k : Nat) (s : List Char),
    (fgetsRead k s).2.length ≤ s.length ∧ (0 < k → s ≠ [] → (fgetsRead k s).2.length < s.length) := by
  intro k
  induction k with
  | zero => intro s; exact ⟨Nat.le_refl _, fun h => absurd h (by decide)⟩
  | succ k ih =>
    intro s
    cases s with
    | nil => exact ⟨Nat.le_refl _, fun _ h => absurd rfl h⟩
    | cons c s =>
      by_cases hc : c = '\n'
      · rw [fgetsRead, if_pos hc]
        exact ⟨Nat.le_succ _, fun _ _ => Nat.lt_succ_self _⟩
      · rw [fgetsRead, if_neg hc]
        have := (ih s).1
        exact ⟨Nat.le_succ_of_le this, fun _ _ => Nat.lt_succ_of_le this⟩

/-- The length of the stream is enough fuel: with it, or with more, the loop
ends at the end of file and counts the same. -/
theorem checkLoop_fuel (t : List Char) : ∀ (fuel1 fuel2 : Nat) (stream : List Char)
    (found : Nat), stream.length ≤ fuel1 → stream.length ≤ fuel2 →
    checkLoop t fuel1 stream found = checkLoop t fuel2 stream found := by
  intro fuel1
  induction fuel1 with
  | zero =>
    intro fuel2 stream found h1 _
    have hs : stream = [] := List.eq_nil_of_length_eq_zero (by omega)
    subst hs
    cases fuel2 <;> rfl
  | succ fuel1 ih =>
    intro fuel2 stream found h1 h2
    cases stream with
    | nil => cases fuel2 <;> rfl
    | cons c s =>
      obtain ⟨f2, rfl⟩ : ∃ f, fuel2 = f + 1 := ⟨fuel2 - 1, by simp at h2; omega⟩
      rw [checkLoop_step t fuel1 (c :: s) found (List.cons_ne_nil _ _),
        checkLoop_step t f2 (c :: s) found (List.cons_ne_nil _ _)]
      have hlt := (fgetsRead_rest_length 4094 (c :: s)).2 (by decide) (List.cons_ne_nil _ _)
      simp only [List.length_cons] at h1 h2 hlt
      exact ih f2 _ _ (by omega) (by omega)

theorem run_malformed (env : Env) (s : List Char) (hn : (sscanf4 (szIpAddress s)).n < 4) :
    WSL_CreateUpdateNetwork env s = ⟨-1, []⟩ := by
  unfold WSL_CreateUpdateNetwork
  simp only [if_pos hn]
  rfl

theorem run_short_circuit (env : Env) (s : List Char) (hn : ¬ (sscanf4 (szIpAddress s)).n < 4)
    (hf : foundCount env s ≠ 0) :
    WSL_CreateUpdateNetwork env s = ⟨-1, listerCalls env⟩ := by
  unfold WSL_CreateUpdateNetwork
  simp only [if_neg hn]
  unfold foundCount hostPID at hf
  rw [if_pos hf]
  rfl

theorem run_no_identity (env : Env) (s : List Char) (hn : ¬ (sscanf4 (szIpAddress s)).n < 4)
    (hf : foundCount env s = 0) (hc : env.CLSIDFromString ≠ S_OK) :
    WSL_CreateUpdateNetwork env s = ⟨-1, listerCalls env⟩ := by
  unfold WSL_CreateUpdateNetwork
  simp only [if_neg hn]
  unfold foundCount hostPID at hf
  rw [if_neg (not_not.2 hf), if_pos hc]
  rfl

theorem createNetwork_eq (env : Env) (calls : List Call) (szIp json : List Char) :
    createNetwork env calls szIp json =
      ⟨createRet env, calls ++ ([Call.HcnCreateNetwork WSL_NETWORK_GUID.toList json,
        Call.system (aliasCommand szIp)] ++ closeCalls env.HcnCreateNetwork.2)⟩ := by
  unfold createNetwork Done closeCalls createRet
  by_cases h : env.HcnCreateNetwork.2 ≠ 0
  · simp only [if_pos h, ne_eq, not_true_eq_false, if_false, List.append_assoc,
      List.singleton_append]
  · simp only [if_neg h, ne_eq, not_true_eq_false, if_false, List.append_assoc,
      List.singleton_append, List.append_nil]

theorem run_delete_failed (env : Env) (s : List Char) (hn : ¬ (sscanf4 (szIpAddress s)).n < 4)
    (hf : foundCount env s = 0) (hc : env.CLSIDFromString = S_OK)
    (ho : env.HcnOpenNetwork.1 = S_OK) (hd : env.HcnDeleteNetwork ≠ S_OK) :
    WSL_CreateUpdateNetwork env s = ⟨-1, listerCalls env ++
      (Call.HcnOpenNetwork WSL_NETWORK_GUID.toList :: (closeCalls env.HcnOpenNetwork.2 ++
        [Call.HcnDeleteNetwork WSL_NETWORK_GUID.toList]))⟩ := by
  unfold WSL_CreateUpdateNetwork
  simp only [if_neg hn]
  unfold foundCount hostPID at hf
  rw [if_neg (not_not.2 hf), if_neg (not_not.2 hc), if_pos ho, if_neg hd]
  unfold Done closeCalls listerCalls hostPID
  by_cases h : env.HcnOpenNetwork.2 ≠ 0
  · simp only [if_pos h, ne_eq, not_true_eq_false, if_false, List.append_assoc,
      List.singleton_append, List.cons_append, List.nil_append]
  · simp only [if_neg h, ne_eq, not_true_eq_false, if_false, List.append_assoc,
      List.singleton_append, List.cons_append, List.nil_append]

theorem run_replaced (env : Env) (s : List Char) (hn : ¬ (sscanf4 (szIpAddress s)).n < 4)
    (hf : foundCount env s = 0) (hc : env.CLSIDFromString = S_OK)
    (ho : env.HcnOpenNetwork.1 = S_OK) (hd : env.HcnDeleteNetwork = S_OK) :
    WSL_CreateUpdateNetwork env s = ⟨createRet env, listerCalls env ++
      (Call.HcnOpenNetwork WSL_NETWORK_GUID.toList :: (closeCalls env.HcnOpenNetwork.2 ++
        (Call.HcnDeleteNetwork WSL_NETWORK_GUID.toList ::
          ([Call.HcnCreateNetwork WSL_NETWORK_GUID.toList (szwJsonBuffer (sscanf4 (szIpAddress s))),
            Call.system (aliasCommand (szIpAddress s))] ++ closeCalls env.HcnCreateNetwork.2))))⟩ := by
  unfold WSL_CreateUpdateNetwork
  simp only [if_neg hn]
  unfold foundCount hostPID at hf
  rw [if_neg (not_not.2 hf), if_neg (not_not.2 hc), if_pos ho, if_pos hd, createNetwork_eq]
  unfold listerCalls hostPID
  generalize closeCalls env.HcnCreateNetwork.2 = tail
  unfold closeCalls
  by_cases h : env.HcnOpenNetwork.2 ≠ 0
  · simp only [if_pos h, List.append_assoc, List.singleton_append, List.cons_append,
      List.nil_append]
  · simp only [if_neg h, List.append_assoc, List.singleton_append, List.cons_append,
      List.nil_append]

theorem run_absent (env : Env) (s : List Char) (hn : ¬ (sscanf4 (szIpAddress s)).n < 4)
    (hf : foundCount env s = 0) (hc : env.CLSIDFromString = S_OK)
    (ho : env.HcnOpenNetwork.1 ≠ S_OK) :
    WSL_CreateUpdateNetwork env s = ⟨createRet env, listerCalls env ++
      (Call.HcnOpenNetwork WSL_NETWORK_GUID.toList ::
        ([Call.HcnCreateNetwork WSL_NETWORK_GUID.toList (szwJsonBuffer (sscanf4 (szIpAddress s))),
          Call.system (aliasCommand (szIpAddress s))] ++ closeCalls env.HcnCreateNetwork.2))⟩ := by
  unfold WSL_CreateUpdateNetwork
  simp only [if_neg hn]
  unfold foundCount hostPID at hf
  rw [if_neg (not_not.2 hf), if_neg (not_not.2 hc), if_neg ho, createNetwork_eq]
  unfold listerCalls hostPID
  simp only [List.append_assoc, List.singleton_append]

theorem mem_listerCalls (env : Env) (x : Call) (h : x ∈ listerCalls env) :
    x = Call.popen "wsl.exe ip addr".toList := by
  unfold listerCalls at h
  split at h
  · exact List.mem_singleton.1 h
  · exact absurd h (List.not_mem_nil _)

theorem mem_closeCalls (k : Nat) (x : Call) (h : x ∈ closeCalls k) :
    x = Call.HcnCloseNetwork := by
  unfold closeCalls at h
  split at h
  · exact List.mem_singleton.1 h
  · exact absurd h (List.not_mem_nil _)

/-- The call of `HcnOpenNetwork` is made only after a successful scan, a lister check
that found nothing, and a successful `CLSIDFromString`. -/
theorem open_called (env : Env) (s : List Char)
    (h : Call.HcnOpenNetwork WSL_NETWORK_GUID.toList ∈ (WSL_CreateUpdateNetwork env s).calls) :
    ¬ (sscanf4 (szIpAddress s)).n < 4 ∧ foundCount env s = 0 ∧ env.CLSIDFromString = S_OK := by
  by_cases hn : (sscanf4 (szIpAddress s)).n < 4
  · rw [run_malformed env s hn] at h
    exact absurd h (List.not_mem_nil _)
  · by_cases hf : foundCount env s = 0
    · by_cases hc : env.CLSIDFromString = S_OK
      · exact ⟨hn, hf, hc⟩
      · rw [run_no_identity env s hn hf hc] at h
        exact absurd (mem_listerCalls env _ h) (by simp)
    · rw [run_short_circuit env s hn hf] at h
      exact absurd (mem_listerCalls env _ h) (by simp)

/-- The call of `HcnOpenNetwork` is reached exactly when the scan yields four
numbers, the lister check finds nothing (or the guest does not run) and
`CLSIDFromString` succeeds. -/
theorem open_called_iff (env : Env) (s : List Char) :
    Call.HcnOpenNetwork WSL_NETWORK_GUID.toList ∈ (WSL_CreateUpdateNetwork env s).calls ↔
      (¬ (sscanf4 (szIpAddress s)).n < 4 ∧ foundCount env s = 0 ∧
        env.CLSIDFromString = S_OK) := by
  constructor
  · exact open_called env s
  · rintro ⟨hn, hf, hc⟩
    by_cases ho : env.HcnOpenNetwork.1 = S_OK
    · by_cases hd : env.HcnDeleteNetwork = S_OK
      · rw [run_replaced env s hn hf hc ho hd]
        exact List.mem_append_right _ (List.mem_cons_self _ _)
      · rw [run_delete_failed env s hn hf hc ho hd]
        exact List.mem_append_right _ (List.mem_cons_self _ _)
    · rw [run_absent env s hn hf hc ho]
      exact List.mem_append_right _ (List.mem_cons_self _ _)

/-- A successful `HcnOpenNetwork` that stores no handle: the close is skipped
and the delete follows the open directly. -/
theorem replace_without_handle (env : Env) (s : List Char)
    (hopen : Call.HcnOpenNetwork WSL_NETWORK_GUID.toList ∈ (WSL_CreateUpdateNetwork env s).calls)
    (hok : env.HcnOpenNetwork.1 = S_OK) (hnull : env.HcnOpenNetwork.2 = 0) :
    ∃ after : List Call, (WSL_CreateUpdateNetwork env s).calls =
      listerCalls env ++ (Call.HcnOpenNetwork WSL_NETWORK_GUID.toList ::
        Call.HcnDeleteNetwork WSL_NETWORK_GUID.toList :: after) := by
  obtain ⟨hn, hf, hc⟩ := open_called env s hopen
  have hclose : closeCalls env.HcnOpenNetwork.2 = [] := by
    unfold closeCalls; rw [if_neg (not_not.2 hnull)]
  by_cases hd : env.HcnDeleteNetwork = S_OK
  · rw [run_replaced env s hn hf hc hok hd, hclose]
    exact ⟨_, rfl⟩
  · rw [run_delete_failed env s hn hf hc hok hd, hclose]
    exact ⟨[], rfl⟩

/-- Every `HcnCreateNetwork` call of a run is for the fixed id and passes the
buffer `szwJsonBuffer`; every `system` call passes the alias command for the
buffer `szIpAddress`. -/
theorem calls_content (env : Env) (s : List Char) (x : Call)
    (hx : x ∈ (WSL_CreateUpdateNetwork env s).calls) :
    (∀ id json, x = Call.HcnCreateNetwork id json →
      id = WSL_NETWORK_GUID.toList ∧ json = szwJsonBuffer (sscanf4 (szIpAddress s))) ∧
    (∀ cmd, x = Call.system cmd → cmd = aliasCommand (szIpAddress s)) := by
  by_cases hn : (sscanf4 (szIpAddress s)).n < 4
  · rw [run_malformed env s hn] at hx
    exact absurd hx (List.not_mem_nil _)
  by_cases hf : foundCount env s = 0
  swap
  · rw [run_short_circuit env s hn hf] at hx
    have := mem_listerCalls env _ hx
    subst this
    exact ⟨fun _ _ h => absurd h (by simp), fun _ h => absurd h (by simp)⟩
  by_cases hc : env.CLSIDFromString = S_OK
  swap
  · rw [run_no_identity env s hn hf hc] at hx
    have := mem_listerCalls env _ hx
    subst this
    exact ⟨fun _ _ h => absurd h (by simp), fun _ h => absurd h (by simp)⟩
  have key : x ∈ listerCalls env ++ (Call.HcnOpenNetwork WSL_NETWORK_GUID.toList ::
      (closeCalls env.HcnOpenNetwork.2 ++ (Call.HcnDeleteNetwork WSL_NETWORK_GUID.toList ::
        ([Call.HcnCreateNetwork WSL_NETWORK_GUID.toList (szwJsonBuffer (sscanf4 (szIpAddress s))),
          Call.system (aliasCommand (szIpAddress s))] ++ closeCalls env.HcnCreateNetwork.2)))) := by
    by_cases ho : env.HcnOpenNetwork.1 = S_OK
    · by_cases hd : env.HcnDeleteNetwork = S_OK
      · rw [run_replaced env s hn hf hc ho hd] at hx
        exact hx
      · rw [run_delete_failed env s hn hf hc ho hd] at hx
        simp only [List.mem_append, List.mem_cons, List.mem_singleton] at hx ⊢
        tauto
    · rw [run_absent env s hn hf hc ho] at hx
      simp only [List.mem_append, List.mem_cons, List.mem_singleton] at hx ⊢
      tauto
  simp only [List.mem_append, List.mem_cons, List.mem_singleton, List.not_mem_nil,
    or_false, or_assoc] at key
  rcases key with h | h | h | h | h | h | h
  · have := mem_listerCalls env _ h
    subst this
    exact ⟨fun _ _ h => absurd h (by simp), fun _ h => absurd h (by simp)⟩
  · subst h
    exact ⟨fun _ _ h => absurd h (by simp), fun _ h => absurd h (by simp)⟩
  · have := mem_closeCalls _ _ h
    subst this
    exact ⟨fun _ _ h => absurd h (by simp), fun _ h => absurd h (by simp)⟩
  · subst h
    exact ⟨fun _ _ h => absurd h (by simp), fun _ h => absurd h (by simp)⟩
  · subst h
    refine ⟨fun id json h => ?_, fun _ h => absurd h (by simp)⟩
    rw [Call.HcnCreateNetwork.injEq] at h
    exact ⟨h.1.symm, h.2.symm⟩
  · subst h
    refine ⟨fun _ _ h => absurd h (by simp), fun cmd h => ?_⟩
    rw [Call.system.injEq] at h
    exact h.symm
  · have := mem_closeCalls _ _ h
    subst this
    exact ⟨fun _ _ h => absurd h (by simp), fun _ h => absurd h (by simp)⟩

/-! ## The claims -/

/-- C1, as stated, fails: the caller's string `longAddress` is not empty and
scans as four numbers, yet the effective target address is not that string but
its first 99 characters. -/
theorem C1_caller_string_is_cut :
    longAddress ≠ [] ∧ (sscanf4 (szIpAddress longAddress)).n = 4 ∧
      szIpAddress longAddress ≠ longAddress ∧
      szIpAddress longAddress = "10.0.5.".toList ++ List.replicate 92 '0' := by
  have h : szIpAddress longAddress = "10.0.5.".toList ++ List.replicate 92 '0' := by
    rw [szIpAddress_eq]; decide
  refine ⟨by decide, ?_, ?_, h⟩
  · rw [h]; decide
  · rw [h]; decide

/-- C1, amended: the effective target address is the caller's string cut to its
first 99 characters (the string itself when it has at most 99) when that string
is not empty, and 192.168.222.222 when it is empty; whenever the effective
target is `a.b.c.d` with octets in 0..255 the scan yields four numbers, the
network string is `a.b.c.0` and the gateway string is `a.b.c.1`, and the same
holds for any other spelling that scans as such numbers; the empty input gives
network 192.168.222.0 and gateway 192.168.222.1. -/
theorem C1_address_derivation :
    (∀ s : List Char, s ≠ [] → szIpAddress s = s.take 99) ∧
    (∀ s : List Char, s ≠ [] → s.length ≤ 99 → szIpAddress s = s) ∧
    szIpAddress [] = "192.168.222.222".toList ∧
    (∀ (s : List Char) (a b c d : Nat), a ≤ 255 → b ≤ 255 → c ≤ 255 → d ≤ 255 →
      szIpAddress s = dottedQuad a b c d →
        (sscanf4 (szIpAddress s)).n = 4 ∧
        szwIpNetwork (sscanf4 (szIpAddress s)) = dottedQuad a b c 0 ∧
        szwIpGateway (sscanf4 (szIpAddress s)) = dottedQuad a b c 1) ∧
    (∀ (s : List Char) (a b c d : Nat), a ≤ 255 → b ≤ 255 → c ≤ 255 →
      sscanf4 (szIpAddress s) = ⟨4, a, b, c, d⟩ →
        szwIpNetwork (sscanf4 (szIpAddress s)) = dottedQuad a b c 0 ∧
        szwIpGateway (sscanf4 (szIpAddress s)) = dottedQuad a b c 1) ∧
    szwIpNetwork (sscanf4 (szIpAddress [])) = "192.168.222.0".toList ∧
    szwIpGateway (sscanf4 (szIpAddress [])) = "192.168.222.1".toList := by
  refine ⟨?_, ?_, ?_, ?_, ?_, default_block.1, default_block.2⟩
  · intro s hs
    rw [szIpAddress_eq, if_pos hs]
  · intro s hs hlen
    rw [szIpAddress_eq, if_pos hs]
    exact List.take_of_length_le hlen
  · rw [szIpAddress_eq]; rfl
  · intro s a b c d ha hb hc hd hs
    exact derived_block s a b c d ha hb hc hd hs
  · intro s a b c d ha hb hc hs
    rw [hs]
    exact ⟨szwIpNetwork_small 4 a b c d ha hb hc, szwIpGateway_small 4 a b c d ha hb hc⟩

/-- C1 at the caller's string `10.0.5.7`: it is its own effective target, the
network is 10.0.5.0 and the gateway 10.0.5.1. -/
theorem C1_address_derivation_witness :
    szIpAddress "10.0.5.7".toList = "10.0.5.7".toList ∧
      szwIpNetwork (sscanf4 (szIpAddress "10.0.5.7".toList)) = "10.0.5.0".toList ∧
      szwIpGateway (sscanf4 (szIpAddress "10.0.5.7".toList)) = "10.0.5.1".toList := by
  have h1 : szIpAddress "10.0.5.7".toList = "10.0.5.7".toList :=
    C1_address_derivation.2.1 "10.0.5.7".toList (by decide) (by decide)
  have h2 := C1_address_derivation.2.2.2.1 "10.0.5.7".toList 10 0 5 7 (by decide) (by decide)
    (by decide) (by decide) (h1.trans (by decide))
  refine ⟨h1, ?_, ?_⟩
  · rw [h2.2.1]; decide
  · rw [h2.2.2]; decide

/-- C2 fails on the code: with the guest running and the default target
address in the lister's output, the run stops after the lister, but the status
of `WSL_CreateUpdateNetwork` and of `main` is -1, not 0. -/
theorem C2_short_circuit_returns_minus_one :
    GetProcessIdByName envAlreadySet.snapshot "wslhost.exe".toList = 1234 ∧
    (∃ out, envAlreadySet.popen = some out ∧ szIpAddress [] <:+: out) ∧
    WSL_CreateUpdateNetwork envAlreadySet [] =
      ⟨-1, [Call.popen "wsl.exe ip addr".toList]⟩ ∧
    (main envAlreadySet ["nshwsl.exe".toList]).ret = -1 := by
  refine ⟨by decide, ⟨_, rfl, ?_⟩, by decide, by decide⟩
  rw [← findString_iff]
  decide

/-- C4: in every run in which `HcnOpenNetwork` is called and succeeds with a
handle (an existing network is found under the fixed id), the calls contain
`HcnCloseNetwork` directly followed by `HcnDeleteNetwork`, no
`HcnCreateNetwork` call stands before them, and every `HcnCreateNetwork` call
of the run stands after the delete call. -/
theorem C4_replace_ordering (env : Env) (s : List Char)
    (hopen : Call.HcnOpenNetwork WSL_NETWORK_GUID.toList ∈ (WSL_CreateUpdateNetwork env s).calls)
    (hok : env.HcnOpenNetwork.1 = S_OK) (hhandle : env.HcnOpenNetwork.2 ≠ 0) :
    ∃ before after : List Call,
      (WSL_CreateUpdateNetwork env s).calls =
        before ++ Call.HcnCloseNetwork :: Call.HcnDeleteNetwork WSL_NETWORK_GUID.toList :: after ∧
      (∀ id json, Call.HcnCreateNetwork id json ∉ before) ∧
      (∀ id json, Call.HcnCreateNetwork id json ∈ (WSL_CreateUpdateNetwork env s).calls →
        Call.HcnCreateNetwork id json ∈ after) := by
  obtain ⟨hn, hf, hc⟩ := open_called env s hopen
  have hclose : closeCalls env.HcnOpenNetwork.2 = [Call.HcnCloseNetwork] := by
    unfold closeCalls; rw [if_pos hhandle]
  have hbefore : ∀ id json, Call.HcnCreateNetwork id json ∉
      listerCalls env ++ [Call.HcnOpenNetwork WSL_NETWORK_GUID.toList] := by
    intro id json hmem
    rcases List.mem_append.1 hmem with h1 | h1
    · exact absurd (mem_listerCalls env _ h1) (by simp)
    · exact absurd (List.mem_singleton.1 h1) (by simp)
  by_cases hd : env.HcnDeleteNetwork = S_OK
  · rw [run_replaced env s hn hf hc hok hd, hclose]
    refine ⟨listerCalls env ++ [Call.HcnOpenNetwork WSL_NETWORK_GUID.toList],
      [Call.HcnCreateNetwork WSL_NETWORK_GUID.toList (szwJsonBuffer (sscanf4 (szIpAddress s))),
        Call.system (aliasCommand (szIpAddress s))] ++ closeCalls env.HcnCreateNetwork.2,
      ?_, hbefore, ?_⟩
    · simp only [List.append_assoc, List.singleton_append, List.cons_append, List.nil_append]
    · intro id json hmem
      rcases List.mem_append.1 hmem with h1 | h1
      · exact absurd (mem_listerCalls env _ h1) (by simp)
      · simpa using h1
  · rw [run_delete_failed env s hn hf hc hok hd, hclose]
    refine ⟨listerCalls env ++ [Call.HcnOpenNetwork WSL_NETWORK_GUID.toList], [], ?_, hbefore, ?_⟩
    · simp only [List.append_assoc, List.singleton_append, List.cons_append, List.nil_append]
    · intro id json hmem
      rcases List.mem_append.1 hmem with h1 | h1
      · exact absurd (mem_listerCalls env _ h1) (by simp)
      · simp at h1

/-- C4 at the address `10.0.5.7` with an existing network and no guest running. -/
theorem C4_replace_ordering_witness :
    ∃ before after : List Call,
      (WSL_CreateUpdateNetwork envReplace "10.0.5.7".toList).calls =
        before ++ Call.HcnCloseNetwork :: Call.HcnDeleteNetwork WSL_NETWORK_GUID.toList :: after ∧
      (∀ id json, Call.HcnCreateNetwork id json ∉ before) ∧
      (∀ id json, Call.HcnCreateNetwork id json ∈
        (WSL_CreateUpdateNetwork envReplace "10.0.5.7".toList).calls →
        Call.HcnCreateNetwork id json ∈ after) :=
  C4_replace_ordering envReplace "10.0.5.7".toList (by decide) (by decide) (by decide)

/-- C5: in every run in which `HcnOpenNetwork` is called and succeeds (an
existing network is found) and `HcnDeleteNetwork` fails, `HcnCreateNetwork` is
never called, the alias command is never issued, and `WSL_CreateUpdateNetwork`,
hence `main`, returns a status that is not 0. -/
theorem C5_deletion_failure_is_fatal (env : Env) (s : List Char)
    (hopen : Call.HcnOpenNetwork WSL_NETWORK_GUID.toList ∈ (WSL_CreateUpdateNetwork env s).calls)
    (hok : env.HcnOpenNetwork.1 = S_OK) (hdel : env.HcnDeleteNetwork ≠ S_OK) :
    Call.HcnDeleteNetwork WSL_NETWORK_GUID.toList ∈ (WSL_CreateUpdateNetwork env s).calls ∧
    (∀ id json, Call.HcnCreateNetwork id json ∉ (WSL_CreateUpdateNetwork env s).calls) ∧
    (∀ cmd, Call.system cmd ∉ (WSL_CreateUpdateNetwork env s).calls) ∧
    (WSL_CreateUpdateNetwork env s).ret ≠ 0 ∧
    (∀ prog rest, (main env (prog :: s :: rest)).ret ≠ 0) := by
  obtain ⟨hn, hf, hc⟩ := open_called env s hopen
  have hrun := run_delete_failed env s hn hf hc hok hdel
  have hnot : ∀ x : Call, x ∈ (WSL_CreateUpdateNetwork env s).calls →
      x = Call.popen "wsl.exe ip addr".toList ∨ x = Call.HcnOpenNetwork WSL_NETWORK_GUID.toList ∨
      x = Call.HcnCloseNetwork ∨ x = Call.HcnDeleteNetwork WSL_NETWORK_GUID.toList := by
    intro x hx
    rw [hrun] at hx
    rcases List.mem_append.1 hx with h1 | h1
    · exact Or.inl (mem_listerCalls env _ h1)
    · rcases List.mem_cons.1 h1 with h2 | h2
      · exact Or.inr (Or.inl h2)
      · rcases List.mem_append.1 h2 with h3 | h3
        · exact Or.inr (Or.inr (Or.inl (mem_closeCalls _ _ h3)))
        · exact Or.inr (Or.inr (Or.inr (List.mem_singleton.1 h3)))
  have hret : (WSL_CreateUpdateNetwork env s).ret ≠ 0 := by
    rw [hrun]; simp
  refine ⟨?_, ?_, ?_, hret, fun _ _ => hret⟩
  · rw [hrun]
    simp
  · intro id json hmem
    rcases hnot _ hmem with h | h | h | h <;> exact absurd h (by simp)
  · intro cmd hmem
    rcases hnot _ hmem with h | h | h | h <;> exact absurd h (by simp)

/-- C5 at the address `10.0.5.7` with an existing network whose deletion is
refused. -/
theorem C5_deletion_failure_is_fatal_witness :
    Call.HcnDeleteNetwork WSL_NETWORK_GUID.toList ∈
      (WSL_CreateUpdateNetwork envDeleteFails "10.0.5.7".toList).calls ∧
    (∀ id json, Call.HcnCreateNetwork id json ∉
      (WSL_CreateUpdateNetwork envDeleteFails "10.0.5.7".toList).calls) ∧
    (∀ cmd, Call.system cmd ∉ (WSL_CreateUpdateNetwork envDeleteFails "10.0.5.7".toList).calls) ∧
    (WSL_CreateUpdateNetwork envDeleteFails "10.0.5.7".toList).ret ≠ 0 :=
  have h := C5_deletion_failure_is_fatal envDeleteFails "10.0.5.7".toList (by decide)
    (by decide) (by decide)
  ⟨h.1, h.2.1, h.2.2.1, h.2.2.2.1⟩

/-- C6 fails on the code: with `HcnCreateNetwork` failing, the status is -1
but the alias command is issued all the same, right after the failed call. -/
theorem C6_alias_issued_after_failed_create :
    envCreateFails.HcnCreateNetwork.1 ≠ S_OK ∧
    (WSL_CreateUpdateNetwork envCreateFails "10.0.5.7".toList).calls =
      [Call.HcnOpenNetwork WSL_NETWORK_GUID.toList,
        Call.HcnCreateNetwork WSL_NETWORK_GUID.toList
          (szwJsonBuffer (sscanf4 "10.0.5.7".toList)),
        Call.system "wsl sudo ip a add 10.0.5.7/24 dev eth0".toList] ∧
    (WSL_CreateUpdateNetwork envCreateFails "10.0.5.7".toList).ret = -1 :=
  ⟨by decide, by rfl, by decide⟩

/-- C7: for every non-empty caller's string from which the scan of
`%d.%d.%d.%d` obtains fewer than four numbers, `WSL_CreateUpdateNetwork`
returns a status that is not 0 and makes no call at all: no open, close, delete
or create of the host network service, no lister and no alias command. -/
theorem C7_malformed_address_rejected (env : Env) (s : List Char) (hne : s ≠ [])
    (hscan : (sscanf4 s).n < 4) :
    (WSL_CreateUpdateNetwork env s).ret ≠ 0 ∧ (WSL_CreateUpdateNetwork env s).calls = [] ∧
    (∀ prog rest, (main env (prog :: s :: rest)).ret ≠ 0 ∧
      (main env (prog :: s :: rest)).calls = []) := by
  have hn : (sscanf4 (szIpAddress s)).n < 4 := by
    rw [szIpAddress_eq, if_pos hne]
    exact sscanf4_take_lt s 99 hscan
  have hrun := run_malformed env s hn
  have hret : (WSL_CreateUpdateNetwork env s).ret ≠ 0 := by
    rw [hrun]; decide
  have hcalls : (WSL_CreateUpdateNetwork env s).calls = [] := by
    rw [hrun]
  exact ⟨hret, hcalls, fun _ _ => ⟨hret, hcalls⟩⟩

/-- C7 at the strings `1.2.3`, `1.2.3.` and `abc`: each is non-empty, scans as
fewer than four numbers, and is rejected without a call. -/
theorem C7_malformed_address_rejected_witness :
    ((sscanf4 "1.2.3".toList).n = 3 ∧ (sscanf4 "1.2.3.".toList).n = 3 ∧
      (sscanf4 "abc".toList).n = 0) ∧
    ((WSL_CreateUpdateNetwork envReplace "1.2.3".toList).ret ≠ 0 ∧
      (WSL_CreateUpdateNetwork envReplace "1.2.3".toList).calls = []) ∧
    ((WSL_CreateUpdateNetwork envReplace "1.2.3.".toList).ret ≠ 0 ∧
      (WSL_CreateUpdateNetwork envReplace "1.2.3.".toList).calls = []) ∧
    ((WSL_CreateUpdateNetwork envReplace "abc".toList).ret ≠ 0 ∧
      (WSL_CreateUpdateNetwork envReplace "abc".toList).calls = []) := by
  have h1 := C7_malformed_address_rejected envReplace "1.2.3".toList (by decide) (by decide)
  have h2 := C7_malformed_address_rejected envReplace "1.2.3.".toList (by decide) (by decide)
  have h3 := C7_malformed_address_rejected envReplace "abc".toList (by decide) (by decide)
  exact ⟨by decide, ⟨h1.1, h1.2.1⟩, ⟨h2.1, h2.2.1⟩, ⟨h3.1, h3.2.1⟩⟩

/-- C9: for every input `a.b.c.d` with octets in 0..255 and every environment,
each document passed to `HcnCreateNetwork` is the fixed template with
`AddressPrefix` and `IpAddressPrefix` both `a.b.c.0/24` and `GatewayAddress`
`a.b.c.1`, and each command passed to `system` is
`wsl sudo ip a add a.b.c.d/24 dev eth0`. -/
theorem C9_document_and_alias (a b c d : Nat) (ha : a ≤ 255) (hb : b ≤ 255) (hc : c ≤ 255)
    (hd : d ≤ 255) (env : Env) :
    (∀ id json, Call.HcnCreateNetwork id json ∈
        (WSL_CreateUpdateNetwork env (dottedQuad a b c d)).calls →
      json =
        ("\n" ++
        "    \x7b\n" ++
        "        \"Name\" : \"WSL\",\n" ++
        "        \"Flags\": 9,\n" ++
        "        \"Type\": \"ICS\",\n" ++
        "        \"IPv6\": false,\n" ++
        "        \"IsolateSwitch\": true,\n" ++
        "        \"MaxConcurrentEndpoints\": 1,\n" ++
        "        \"Subnets\" : [\n" ++
        "            \x7b\n" ++
        "                \"ID\" : \"FC437E99-2063-4433-A1FA-F4D17BD55C92\",\n" ++
        "                \"ObjectType\": 5,\n" ++
        "                \"AddressPrefix\" : \"").toList ++
        (dottedQuad a b c 0 ++
        (("/24\",\n" ++
        "                \"GatewayAddress\" : \"").toList ++
        (dottedQuad a b c 1 ++
        (("\",\n" ++
        "                \"IpSubnets\" : [\n" ++
        "                    \x7b\n" ++
        "                        \"ID\" : \"4D120505-4222-4CB2-8C53-DC0F70049696\",\n" ++
        "                        \"Flags\": 3,\n" ++
        "                        \"IpAddressPrefix\": \"").toList ++
        (dottedQuad a b c 0 ++
        ("/24\",\n" ++
        "                        \"ObjectType\": 6\n" ++
        "                    \x7d\n" ++
        "                ]\n" ++
        "            \x7d\n" ++
        "        ],\n" ++
        "        \"MacPools\":  [\n" ++
        "            \x7b\n" ++
        "                \"EndMacAddress\":  \"00-15-5D-52-C0-FF\",\n" ++
        "                \"StartMacAddress\":  \"00-15-5D-52-C0-00\"\n" ++
        "            \x7d\n" ++
        "        ]\n" ++
        "    \x7d").toList)))))) ∧
    (∀ cmd, Call.system cmd ∈ (WSL_CreateUpdateNetwork env (dottedQuad a b c d)).calls →
      cmd = "wsl sudo ip a add ".toList ++ (dottedQuad a b c d ++ "/24 dev eth0".toList)) := by
  have hs := szIpAddress_dottedQuad a b c d ha hb hc hd
  have hblock := derived_block (dottedQuad a b c d) a b c d ha hb hc hd hs
  have hlen0 := (dottedQuad_length a b c 0 ha hb hc (by decide)).2
  have hlen1 := (dottedQuad_length a b c 1 ha hb hc (by decide)).2
  constructor
  · intro id json hmem
    have h := ((calls_content env _ _ hmem).1 id json rfl).2
    rw [h, szwJsonBuffer, hblock.2.1, hblock.2.2]
    exact json_document _ _ (by omega) (by omega)
  · intro cmd hmem
    have h := (calls_content env _ _ hmem).2 cmd rfl
    rw [h, hs]
    exact aliasCommand_eq _ (by have := (dottedQuad_length a b c d ha hb hc hd).2; omega)

/-- C9 at the input `10.0.5.7` with no guest running and no network present:
the run does call `HcnCreateNetwork` and `system`; the document has
`10.0.5.0/24` in both prefix fields and `10.0.5.1` as gateway, and the alias
command is for `10.0.5.7/24`. -/
theorem C9_document_and_alias_witness :
    (∃ id json, Call.HcnCreateNetwork id json ∈
      (WSL_CreateUpdateNetwork envAbsent "10.0.5.7".toList).calls) ∧
    (∀ id json, Call.HcnCreateNetwork id json ∈
        (WSL_CreateUpdateNetwork envAbsent "10.0.5.7".toList).calls →
      json =
        ("\n" ++
        "    \x7b\n" ++
        "        \"Name\" : \"WSL\",\n" ++
        "        \"Flags\": 9,\n" ++
        "        \"Type\": \"ICS\",\n" ++
        "        \"IPv6\": false,\n" ++
        "        \"IsolateSwitch\": true,\n" ++
        "        \"MaxConcurrentEndpoints\": 1,\n" ++
        "        \"Subnets\" : [\n" ++
        "            \x7b\n" ++
        "                \"ID\" : \"FC437E99-2063-4433-A1FA-F4D17BD55C92\",\n" ++
        "                \"ObjectType\": 5,\n" ++
        "                \"AddressPrefix\" : \"").toList ++
        ("10.0.5.0".toList ++
        (("/24\",\n" ++
        "                \"GatewayAddress\" : \"").toList ++
        ("10.0.5.1".toList ++
        (("\",\n" ++
        "                \"IpSubnets\" : [\n" ++
        "                    \x7b\n" ++
        "                        \"ID\" : \"4D120505-4222-4CB2-8C53-DC0F70049696\",\n" ++
        "                        \"Flags\": 3,\n" ++
        "                        \"IpAddressPrefix\": \"").toList ++
        ("10.0.5.0".toList ++
        ("/24\",\n" ++
        "                        \"ObjectType\": 6\n" ++
        "                    \x7d\n" ++
        "                ]\n" ++
        "            \x7d\n" ++
        "        ],\n" ++
        "        \"MacPools\":  [\n" ++
        "            \x7b\n" ++
        "                \"EndMacAddress\":  \"00-15-5D-52-C0-FF\",\n" ++
        "                \"StartMacAddress\":  \"00-15-5D-52-C0-00\"\n" ++
        "            \x7d\n" ++
        "        ]\n" ++
        "    \x7d").toList)))))) ∧
    Call.system "wsl sudo ip a add 10.0.5.7/24 dev eth0".toList ∈
      (WSL_CreateUpdateNetwork envAbsent "10.0.5.7".toList).calls ∧
    (∀ cmd, Call.system cmd ∈ (WSL_CreateUpdateNetwork envAbsent "10.0.5.7".toList).calls →
      cmd = "wsl sudo ip a add 10.0.5.7/24 dev eth0".toList) := by
  have h := C9_document_and_alias 10 0 5 7 (by decide) (by decide) (by decide) (by decide)
    envAbsent
  have hcalls : (WSL_CreateUpdateNetwork envAbsent "10.0.5.7".toList).calls =
      [Call.HcnOpenNetwork WSL_NETWORK_GUID.toList,
        Call.HcnCreateNetwork WSL_NETWORK_GUID.toList (szwJsonBuffer (sscanf4 "10.0.5.7".toList)),
        Call.system "wsl sudo ip a add 10.0.5.7/24 dev eth0".toList,
        Call.HcnCloseNetwork] := by
    rfl
  refine ⟨⟨WSL_NETWORK_GUID.toList, szwJsonBuffer (sscanf4 "10.0.5.7".toList), ?_⟩,
    h.1, ?_, h.2⟩
  · rw [hcalls]
    exact List.mem_cons_of_mem _ (List.mem_cons_self _ _)
  · rw [hcalls]
    exact List.mem_cons_of_mem _ (List.mem_cons_of_mem _ (List.mem_cons_self _ _))

/-- C10, as stated, fails: with `HcnOpenNetwork` refused by `E_ACCESSDENIED`,
which is neither success nor the not-found result, the run goes on to
`HcnCreateNetwork` and returns 0. -/
theorem C10_other_lookup_failure_proceeds :
    envAccessDenied.HcnOpenNetwork.1 ≠ S_OK ∧
    envAccessDenied.HcnOpenNetwork.1 ≠ HCN_E_NETWORK_NOT_FOUND ∧
    (WSL_CreateUpdateNetwork envAccessDenied "10.0.5.7".toList).calls =
      [Call.HcnOpenNetwork WSL_NETWORK_GUID.toList,
        Call.HcnCreateNetwork WSL_NETWORK_GUID.toList
          (szwJsonBuffer (sscanf4 "10.0.5.7".toList)),
        Call.system "wsl sudo ip a add 10.0.5.7/24 dev eth0".toList,
        Call.HcnCloseNetwork] ∧
    (WSL_CreateUpdateNetwork envAccessDenied "10.0.5.7".toList).ret = 0 :=
  ⟨by decide, by decide, by rfl, by decide⟩

/-- C10, amended: in every run in which `HcnOpenNetwork` is called and fails,
with whatever error (the not-found result or any other), the network is taken
as absent: the next call is `HcnCreateNetwork`, no close or delete is made
before it, and the status is 0 when create succeeds and -1 when it fails. -/
theorem C10_any_lookup_failure_is_absent (env : Env) (s : List Char)
    (hopen : Call.HcnOpenNetwork WSL_NETWORK_GUID.toList ∈ (WSL_CreateUpdateNetwork env s).calls)
    (hfail : env.HcnOpenNetwork.1 ≠ S_OK) :
    (WSL_CreateUpdateNetwork env s).calls =
      listerCalls env ++ (Call.HcnOpenNetwork WSL_NETWORK_GUID.toList ::
        Call.HcnCreateNetwork WSL_NETWORK_GUID.toList (szwJsonBuffer (sscanf4 (szIpAddress s))) ::
        Call.system (aliasCommand (szIpAddress s)) :: closeCalls env.HcnCreateNetwork.2) ∧
    (env.HcnCreateNetwork.1 = S_OK → (WSL_CreateUpdateNetwork env s).ret = 0) ∧
    (env.HcnCreateNetwork.1 ≠ S_OK → (WSL_CreateUpdateNetwork env s).ret = -1) := by
  obtain ⟨hn, hf, hc⟩ := open_called env s hopen
  rw [run_absent env s hn hf hc hfail]
  refine ⟨rfl, ?_, ?_⟩
  · intro h
    simp [createRet, h]
  · intro h
    simp [createRet, h]

/-- C10, amended, at a lookup refused by `E_ACCESSDENIED` and at a lookup that
reports not-found: both runs create the network and return 0. -/
theorem C10_any_lookup_failure_is_absent_witness :
    (WSL_CreateUpdateNetwork envAccessDenied "10.0.5.7".toList).ret = 0 ∧
    (WSL_CreateUpdateNetwork envAbsent "10.0.5.7".toList).ret = 0 :=
  ⟨(C10_any_lookup_failure_is_absent envAccessDenied "10.0.5.7".toList (by decide)
      (by decide)).2.1 (by decide),
    (C10_any_lookup_failure_is_absent envAbsent "10.0.5.7".toList (by decide)
      (by decide)).2.1 (by decide)⟩

end Nshwsl
